import Mathlib

/-!
Verification of the aik-back karaoke/job-matcher backend.

The definitions below are a shallow embedding of the Python sources:

* `application/karaoke_tracks/services/transcript_service.py` — transcript fusion;
* `application/karaoke_tracks/services/assemblyai_models.py` and
  `assemblyai_client.py` — the VTT subtitle parser;
* `application/karaoke_tracks/use_cases/*.py` — the worker per-row step
  functions and their error handlers;
* `application/job_matcher/use_cases/*.py` — the duplicate checker and the
  vacancy–resume matcher.

Machine integers are modelled as `Int`/`Nat` (Python ints are unbounded, so no
overflow handling is needed); Python `float` confidence values are modelled as
`Rat` (they are only carried through, never computed with); fallible paths are
modelled with `Option`/`Except`; raised exceptions that a worker catches are
modelled as explicit outcome constructors fed to the per-row function.
-/

namespace AikBack

/-! ## Python list/string primitives

Python's `sorted` is a stable ascending sort; a stable sort's output is
uniquely determined by the key order, so it is modelled here by a stable
insertion sort (structural recursion, so that concrete witnesses evaluate in
the kernel). -/

/-- Insert `x` after every element `y` with `le y x`: the stable position for
an element arriving later than the elements of `l`. -/
def stableInsert (le : α → α → Bool) (x : α) : List α → List α
  | [] => [x]
  | y :: ys => if le y x then y :: stableInsert le x ys else x :: y :: ys

/-- Python's `sorted(l, key=...)`/`list.sort(key=...)`: elements are taken in
order and each is placed after all elements with a key less than or equal to
its own, which is exactly stable ascending sorting. -/
def pySorted (le : α → α → Bool) (l : List α) : List α :=
  l.foldl (fun acc x => stableInsert le x acc) []

/-! ## Karaoke data model (`application/karaoke_tracks/models/models.py`) -/

/-- `WordItem`: a timed ASR word.  `stop` embeds the Python field `end`
(`end` is a Lean keyword); times are milliseconds. -/
structure WordItem where
  text : String
  start : Int
  stop : Int
  confidence : Rat
  speaker : Option String
  deriving DecidableEq, Repr

/-- `SubtitleItem` (karaoke model): a subtitle cue.  `stop` embeds `end`. -/
structure SubtitleItem where
  text : String
  start : Int
  stop : Int
  deriving DecidableEq, Repr

/-- `TranscriptItem`: one karaoke line.  `stop` embeds `end`. -/
structure TranscriptItem where
  text : String
  start : Int
  stop : Int
  words : List WordItem
  deriving DecidableEq, Repr

/-! ## Transcript fusion (`TranscriptService`, transcript_service.py) -/

/-- `TranscriptService._get_word_id`: the string
`f"{word.text}_{word.start}_{word.end}_{word.speaker or 'unknown'}"`.
Python's `or` replaces both `None` and the empty string by `"unknown"`. -/
def getWordId (w : WordItem) : String :=
  w.text ++ "_" ++ toString w.start ++ "_" ++ toString w.stop ++ "_" ++
    (match w.speaker with
     | some s => if s = "" then "unknown" else s
     | none => "unknown")

/-- `TranscriptService._find_words_for_subtitle`: scan the sorted words,
skip the ones whose id is already used, keep those whose `end` lies in
`[subtitle.start, subtitle.end]`. -/
def findWordsForSubtitle (sortedWords : List WordItem) (subtitle : SubtitleItem)
    (usedWords : List String) : List WordItem :=
  sortedWords.filter fun w =>
    !decide (getWordId w ∈ usedWords) &&
      decide (subtitle.start ≤ w.stop) && decide (w.stop ≤ subtitle.stop)

/-- `TranscriptService._adjust_word_starts`: copy each word with
`start := max(word.start, subtitle.start)`, `end` unchanged. -/
def adjustWordStarts (words : List WordItem) (subtitle : SubtitleItem) :
    List WordItem :=
  words.map fun w =>
    { text := w.text, start := max w.start subtitle.start, stop := w.stop
      confidence := w.confidence, speaker := w.speaker }

/-- Python's `sorted(words, key=lambda x: x.start)` (a stable sort). -/
def sortWordsByStart (words : List WordItem) : List WordItem :=
  pySorted (fun a b => a.start ≤ b.start) words

/-- Python's `sorted(subtitles, key=lambda x: x.start)` (a stable sort). -/
def sortSubtitlesByStart (subtitles : List SubtitleItem) : List SubtitleItem :=
  pySorted (fun a b => a.start ≤ b.start) subtitles

/-- The main loop of `TranscriptService.create_transcript`: walk the sorted
subtitles, collecting and consuming words.  `usedWords` models the Python
`used_words` set of word-id strings (list membership = set membership). -/
def createTranscriptLoop (sortedWords : List WordItem) :
    List SubtitleItem → List String → List TranscriptItem
  | [], _ => []
  | subtitle :: rest, usedWords =>
    let subtitleWords := findWordsForSubtitle sortedWords subtitle usedWords
    let adjustedWords := adjustWordStarts subtitleWords subtitle
    { text := subtitle.text, start := subtitle.start, stop := subtitle.stop
      words := adjustedWords } ::
      createTranscriptLoop sortedWords rest
        (usedWords ++ subtitleWords.map getWordId)

/-- `TranscriptService.create_transcript`. -/
def createTranscript (words : List WordItem) (subtitles : List SubtitleItem) :
    List TranscriptItem :=
  if words = [] ∨ subtitles = [] then []
  else
    createTranscriptLoop (sortWordsByStart words)
      (sortSubtitlesByStart subtitles) []

/-! ### Specification-side fusion (spec §4.6, claim C1)

`claimFuseWith key` transcribes the spec's wording of `Fuse(words, subtitles)`
parametrised by the word-identity function: one TranscriptLine per cue in
ascending start order; each line collects the not-yet-consumed words (under
`key`) whose end lies in `[cue.start, cue.end]`, in the order found, with the
start clamped to `max(word.start, cue.start)`; collected words become
consumed for all later cues. -/

/-- The claim's word identity: the tuple text+start+end+speaker. -/
def wordKey (w : WordItem) : String × Int × Int × Option String :=
  (w.text, w.start, w.stop, w.speaker)

/-- One cue of the spec's fusion: the not-yet-consumed words whose end time
lies in `[cue.start, cue.end]`, kept in the order found. -/
def claimCollect {κ : Type} [DecidableEq κ] (key : WordItem → κ)
    (consumed : List κ) (cue : SubtitleItem) (ws : List WordItem) :
    List WordItem :=
  ws.filter fun w =>
    !decide (key w ∈ consumed) &&
      decide (cue.start ≤ w.stop) && decide (w.stop ≤ cue.stop)

/-- The spec's per-cue loop: emit a line per cue and mark the collected
words consumed for all later cues. -/
def claimFuseLoop {κ : Type} [DecidableEq κ] (key : WordItem → κ)
    (ws : List WordItem) : List SubtitleItem → List κ → List TranscriptItem
  | [], _ => []
  | cue :: rest, consumed =>
    let collected := claimCollect key consumed cue ws
    { text := cue.text, start := cue.start, stop := cue.stop
      words := collected.map fun w => { w with start := max w.start cue.start } } ::
      claimFuseLoop key ws rest (consumed ++ collected.map key)

/-- The spec's `Fuse(words, subtitles)` over a word-identity function `key`
(on empty input the implementation short-circuits to `[]`). -/
def claimFuseWith {κ : Type} [DecidableEq κ] (key : WordItem → κ)
    (words : List WordItem) (subtitles : List SubtitleItem) :
    List TranscriptItem :=
  if words = [] ∨ subtitles = [] then []
  else
    claimFuseLoop key (sortWordsByStart words) (sortSubtitlesByStart subtitles) []

/-! ## VTT subtitle parser
(`assemblyai_models.SubtitleItem.from_vtt_block`, `_parse_vtt_time` and
`AssemblyAIClient._parse_vtt_subtitles`)

Python string operations are modelled on `List Char` with structural
recursion so that concrete inputs evaluate in the kernel. -/

/-- The characters Python's `str.strip()` removes. -/
def pyIsSpace (c : Char) : Bool :=
  c = ' ' || c = '\t' || c = '\n' || c = '\r' || c = '\x0b' || c = '\x0c'

/-- Python's `str.strip()`. -/
def pyStrip (l : List Char) : List Char :=
  ((l.dropWhile pyIsSpace).reverse.dropWhile pyIsSpace).reverse

/-- Worker loop of `pySplit`; the fuel starts above the string length, so the
`0` case is unreachable (kept total for structural recursion). -/
def pySplitGo (sep : List Char) : Nat → List Char → List Char → List (List Char)
  | 0, s, acc => [acc.reverse ++ s]
  | _ + 1, [], acc => [acc.reverse]
  | fuel + 1, c :: rest, acc =>
    if sep.isPrefixOf (c :: rest) then
      acc.reverse :: pySplitGo sep fuel (List.drop (sep.length - 1) rest) []
    else
      pySplitGo sep fuel rest (c :: acc)

/-- Python's `str.split(sep)` for a non-empty separator: left-to-right,
non-overlapping; consecutive separators produce empty fields and the result
is never empty. -/
def pySplit (sep s : List Char) : List (List Char) :=
  pySplitGo sep (s.length + 1) s []

/-- Digit run to a number: the core of Python's `int(...)`. -/
def pyDigitsToNat : List Char → Option Nat
  | [] => none
  | ds =>
    if ds.all (·.isDigit) then
      some (ds.foldl (fun n c => n * 10 + (c.toNat - '0'.toNat)) 0)
    else none

/-- Python's `int(str)`: surrounding whitespace, an optional sign, then
decimal digits (digit-group underscores, absent from VTT time stamps, are not
modelled).  `none` models the raised `ValueError`. -/
def pyInt (l : List Char) : Option Int :=
  match pyStrip l with
  | '+' :: ds => (pyDigitsToNat ds).map Int.ofNat
  | '-' :: ds => (pyDigitsToNat ds).map fun n => -(n : Int)
  | ds => (pyDigitsToNat ds).map Int.ofNat

/-- `ms_part.ljust(3, "0")[:3]` from `_parse_vtt_time`. -/
def ljustThreeTruncate (l : List Char) : List Char :=
  (l ++ List.replicate (3 - l.length) '0').take 3

/-- `SubtitleItem._parse_vtt_time`: `HH:MM:SS.mmm` or `MM:SS.mmm` to
milliseconds; `none` models the raised (and later caught) `ValueError`;
a 2-dot string fails the 2-tuple unpacking, also a `ValueError`. -/
def parseVttTime (timeStr : List Char) : Option Int :=
  let t := pyStrip timeStr
  let parts := pySplit ['.'] t
  match parts with
  | [timePart] => parseVttClock timePart 0
  | [timePart, msPart] => do
    let ms ← pyInt (ljustThreeTruncate msPart)
    parseVttClock timePart ms
  | _ => none
where
  /-- The `HH:MM:SS` / `MM:SS` component split of `_parse_vtt_time`. -/
  parseVttClock (timePart : List Char) (ms : Int) : Option Int :=
    match pySplit [':'] timePart with
    | [h, m, s] => do
      let hours ← pyInt h
      let minutes ← pyInt m
      let seconds ← pyInt s
      some ((hours * 3600 + minutes * 60 + seconds) * 1000 + ms)
    | [m, s] => do
      let minutes ← pyInt m
      let seconds ← pyInt s
      some ((minutes * 60 + seconds) * 1000 + ms)
    | _ => none

/-- `assemblyai_models.SubtitleItem`: a parsed VTT cue (`time_start`,
`time_end` in milliseconds).  Named `VttSubtitleItem` here because the
karaoke model class of the same Python name is `SubtitleItem` above. -/
structure VttSubtitleItem where
  timeStart : Int
  timeEnd : Int
  text : List Char
  deriving DecidableEq, Repr

/-- `SubtitleItem.from_vtt_block`: `none` both for the explicit `return None`
branches (fewer than two lines, no ` --> ` in the first line) and for the
`ValueError` paths that `_parse_vtt_subtitles` catches and skips (bad time
stamp, more than one ` --> `). -/
def fromVttBlock (vttBlock : List Char) : Option VttSubtitleItem :=
  match pySplit ['\n'] (pyStrip vttBlock) with
  | [] => none
  | [_] => none
  | timeLine :: textLines =>
    match pySplit (' ' :: '-' :: '-' :: '>' :: [' ']) timeLine with
    | [startStr, endStr] => do
      let startMs ← parseVttTime (pyStrip startStr)
      let endMs ← parseVttTime (pyStrip endStr)
      some ⟨startMs, endMs, pyStrip (List.intercalate ['\n'] textLines)⟩
    | _ => none

/-- One block of `AssemblyAIClient._parse_vtt_subtitles`: strip, drop empty
blocks and the `WEBVTT` header, parse the rest, skipping failures. -/
def parseVttBlock (block : List Char) : Option VttSubtitleItem :=
  let b := pyStrip block
  if b = [] then none
  else if List.isPrefixOf ("WEBVTT".data) b then none
  else fromVttBlock b

/-- `AssemblyAIClient._parse_vtt_subtitles`: split the payload into blocks on
blank lines, parse each block (skipping malformed ones), then sort by start
time (Python's stable `list.sort`). -/
def parseVttSubtitles (vttText : List Char) : List VttSubtitleItem :=
  let blocks := pySplit ('\n' :: ['\n']) (pyStrip vttText)
  pySorted (fun a b => a.timeStart ≤ b.timeStart) (blocks.filterMap parseVttBlock)

/-! ## Task / step state (`models.py` enums and rows) -/

/-- `TrackCreatingTaskStatus`. -/
inductive TrackStatus where
  | created | inSplitProcess | splitCompleted | inTranscriptProcess
  | transcriptCompleted | inSubtitlesProcess | subtitlesCompleted
  | completed | failed
  deriving DecidableEq, Repr

/-- `TrackCreatingTaskStepType`. -/
inductive StepType where
  | split | transcript | subtitles
  deriving DecidableEq, Repr

/-- `TrackCreatingTaskStepStatus`. -/
inductive StepStatus where
  | init | inProcess | completed | failed | finalFailed
  deriving DecidableEq, Repr

/-- A claimed `TrackCreatingTaskStep` row.  Every claim query filters
`retries < 5`, and SQL `NULL < 5` is not satisfied, so a claimed row always
has a non-null `retries`; the JSON `data` payload of a claimed row is
modelled as a string-to-string association list. -/
structure StepRow where
  kind : StepType
  status : StepStatus
  retries : Nat
  data : List (String × String)
  processedAt : Option Nat
  deriving DecidableEq, Repr

/-- A `TrackCreatingTask` row (the columns the workers touch). -/
structure TaskRow where
  status : TrackStatus
  vocalFile : Option String
  instrumentalFile : Option String
  words : Option (List WordItem)
  subtitles : Option (List SubtitleItem)
  deriving DecidableEq, Repr

/-- An appended `TrackCreatingTaskLog` row (the fields the claims mention). -/
structure LogEntry where
  errorKind : String
  message : String
  retryCount : Option Nat
  providerContext : Option String
  deriving DecidableEq, Repr

/-- The caught Python exception, as the error handlers see it:
`type(error).__name__`, `str(error)`, and the `BaseError` details /
API-response context when present. -/
structure ErrInfo where
  errType : String
  message : String
  providerContext : Option String
  deriving DecidableEq, Repr

/-- The slice of durable state one per-row worker invocation can touch: the
claimed step, its parent task, the append-only log, and the messages sent
through the `Notifier`. -/
structure WorkerState where
  step : StepRow
  task : TaskRow
  logs : List LogEntry
  notifications : List String
  deriving DecidableEq, Repr

/-! ## Error handlers (retry policy)

Each of the three poll use-cases has its own handler; all re-read the step
by id under `FOR UPDATE` *without* a status filter, so the row is always
found and mutated. -/

/-- `get_result_track_splitting._handle_result_error`. -/
def handleResultError (e : ErrInfo) (s : WorkerState) : WorkerState :=
  let retries := s.step.retries + 1
  let final := 5 ≤ retries
  { step := { s.step with
      retries := retries
      status := if final then .finalFailed else .failed }
    task := { s.task with status := if final then .failed else s.task.status }
    logs := s.logs ++ [⟨e.errType, e.message, some retries, e.providerContext⟩]
    notifications := s.notifications ++
      if final then ["Final split result failure"] else [] }

/-- `get_subtitles_result._handle_subtitles_error`. -/
def handleSubtitlesError (e : ErrInfo) (s : WorkerState) : WorkerState :=
  let retries := s.step.retries + 1
  let final := 5 ≤ retries
  { step := { s.step with
      retries := retries
      status := if final then .finalFailed else .failed }
    task := { s.task with status := if final then .failed else s.task.status }
    logs := s.logs ++ [⟨e.errType, e.message, some retries, e.providerContext⟩]
    notifications := s.notifications ++
      if final then ["Final subtitles result failure"] else [] }

/-- `get_transcription_result._handle_result_error`. -/
def handleTranscriptionResultError (e : ErrInfo) (s : WorkerState) : WorkerState :=
  let retries := s.step.retries + 1
  let final := 5 ≤ retries
  { step := { s.step with
      retries := retries
      status := if final then .finalFailed else .failed }
    task := { s.task with status := if final then .failed else s.task.status }
    logs := s.logs ++ [⟨e.errType, e.message, some retries, e.providerContext⟩]
    notifications := s.notifications ++
      if final then ["Final transcription result failure"] else [] }

/-! ## Split poll worker (`get_result_track_splitting.py`) -/

/-- What `_get_single_result_track_splitting` observes of the external world:
the LALAL status check plus the stem uploads.  `missingResult` is the
in-function `raise SplitResultsNotFoundError` (no `file_result`, or a result
without `split`); `raised` is any other exception from the client or the
storage uploads.  Both reach the same `except` and the handler. -/
inductive SplitCheckOutcome where
  | progress
  | success (vocalKey instrumentalKey : String)
  | missingResult (e : ErrInfo)
  | raised (e : ErrInfo)
  deriving DecidableEq, Repr

/-- `_get_single_result_track_splitting`: `progress` returns untouched; a
success re-reads the step under lock re-checking
`status ∈ {IN_PROCESS, FAILED}` and silently skips a row that moved on; any
raise goes to `_handle_result_error`. -/
def getSingleResultTrackSplitting (outcome : SplitCheckOutcome) (now : Nat)
    (s : WorkerState) : WorkerState :=
  match outcome with
  | .progress => s
  | .missingResult e => handleResultError e s
  | .raised e => handleResultError e s
  | .success vocalKey instrumentalKey =>
    if s.step.status = .inProcess ∨ s.step.status = .failed then
      { step := { s.step with status := .completed, processedAt := some now }
        task := { s.task with
          vocalFile := some vocalKey
          instrumentalFile := some instrumentalKey
          status := .splitCompleted }
        logs := s.logs ++
          [⟨"success", "Successfully processed split results", none, none⟩]
        notifications := s.notifications }
    else s

/-! ## Transcription poll worker (`get_transcription_result.py`) -/

/-- `assemblyai_models.TranscriptStatus`. -/
inductive TranscriptStatus where
  | queued | processing | completed | error
  deriving DecidableEq, Repr

/-- What `_get_single_transcription_result` observes: the ASR `Get` response
(status, words, error message) or an exception from the client. -/
inductive TranscriptionOutcome where
  | got (status : TranscriptStatus) (words : List WordItem)
      (errorMsg : Option String)
  | raised (e : ErrInfo)
  deriving DecidableEq, Repr

/-- `_process_completed_transcription`: persists the words under lock after
re-checking `status ∈ {IN_PROCESS, FAILED}`. -/
def processCompletedTranscription (words : List WordItem) (now : Nat)
    (s : WorkerState) : WorkerState :=
  if s.step.status = .inProcess ∨ s.step.status = .failed then
    { step := { s.step with status := .completed, processedAt := some now }
      task := { s.task with status := .transcriptCompleted, words := some words }
      logs := s.logs ++
        [⟨"success", "Successfully processed transcription result", none, none⟩]
      notifications := s.notifications }
  else s

/-- `_process_failed_transcription` (ASR `status=error`): locked re-read by
id with no status filter, then the retry policy. -/
def processFailedTranscription (errorMsg : Option String) (s : WorkerState) :
    WorkerState :=
  -- `get_result.response.error or "Transcription failed"`: Python's `or`
  -- also replaces an empty error string by the default
  let message := match errorMsg with
    | some m => if m = "" then "Transcription failed" else m
    | none => "Transcription failed"
  let retries := s.step.retries + 1
  let final := 5 ≤ retries
  { step := { s.step with
      retries := retries
      status := if final then .finalFailed else .failed }
    task := { s.task with status := if final then .failed else s.task.status }
    logs := s.logs ++ [⟨"transcription_failed", message, some retries, none⟩]
    notifications := s.notifications ++
      if final then ["Final transcription failure"] else [] }

/-- `_get_single_transcription_result`: a status that is neither `completed`
nor `error` returns with no state change at all. -/
def getSingleTranscriptionResult (outcome : TranscriptionOutcome) (now : Nat)
    (s : WorkerState) : WorkerState :=
  match outcome with
  | .raised e => handleTranscriptionResultError e s
  | .got status words errorMsg =>
    if status ≠ .completed ∧ status ≠ .error then s
    else if status = .completed then processCompletedTranscription words now s
    else processFailedTranscription errorMsg s

/-! ## Subtitles fetch worker (`get_subtitles_result.py`) -/

/-- What `_get_single_subtitles_result` observes: the raw VTT text of a
successful `get_subtitles` call, or an exception. -/
inductive SubtitlesOutcome where
  | fetched (vttText : List Char)
  | raised (e : ErrInfo)
  deriving DecidableEq, Repr

/-- `_get_single_subtitles_result`: parse the fetched VTT, then under lock
re-check `status ∈ {INIT, IN_PROCESS, FAILED}` and persist the cues (however
many parsed — an empty list included) marking task `SUBTITLES_COMPLETED` and
the step `COMPLETED`; any raise goes to `_handle_subtitles_error`. -/
def getSingleSubtitlesResult (outcome : SubtitlesOutcome) (now : Nat)
    (s : WorkerState) : WorkerState :=
  match outcome with
  | .raised e => handleSubtitlesError e s
  | .fetched vttText =>
    let subtitleItems := (parseVttSubtitles vttText).map fun c =>
      { text := String.mk c.text, start := c.timeStart, stop := c.timeEnd :
        SubtitleItem }
    if s.step.status = .init ∨ s.step.status = .inProcess ∨
        s.step.status = .failed then
      { step := { s.step with status := .completed, processedAt := some now }
        task := { s.task with
          status := .subtitlesCompleted
          subtitles := some subtitleItems }
        logs := s.logs ++
          [⟨"success", "Successfully processed subtitles result", none, none⟩]
        notifications := s.notifications }
    else s

/-! ## Init workers (`init_track_splitting.py`, `init_transcription.py`,
`init_subtitles.py`)

`StepInsert` is the `TrackCreatingTaskStep(...)` constructor call: here the
nullable columns (`data`, `retries`) are still visible as `Option`. -/

/-- The keyword arguments of a `TrackCreatingTaskStep(...)` insert. -/
structure StepInsert where
  kind : StepType
  status : StepStatus
  data : Option (List (String × String))
  retries : Option Nat
  deriving DecidableEq, Repr

/-- `_init_single_task_splitting`: under lock, re-check
`status = CREATED`, skip if a SPLIT step exists, otherwise create the INIT
SPLIT step and move the task to `IN_SPLIT_PROCESS`.  `none` models the
silent return paths. -/
def initSingleTaskSplitting (taskStatus : TrackStatus) (steps : List StepRow) :
    Option (StepInsert × TrackStatus) :=
  if taskStatus = .created then
    if (steps.find? fun st => st.kind = .split).isSome then none
    else
      some ({ kind := .split, status := .init, data := some [],
              retries := some 0 }, .inSplitProcess)
  else none

/-- `_init_single_task_transcription`: re-check `status = SPLIT_COMPLETED`,
skip if a TRANSCRIPT step exists, otherwise create the INIT TRANSCRIPT step
and move the task to `IN_TRANSCRIPT_PROCESS`. -/
def initSingleTaskTranscription (taskStatus : TrackStatus)
    (steps : List StepRow) : Option (StepInsert × TrackStatus) :=
  if taskStatus = .splitCompleted then
    if (steps.find? fun st => st.kind = .transcript).isSome then none
    else
      some ({ kind := .transcript, status := .init, data := some [],
              retries := some 0 }, .inTranscriptProcess)
  else none

/-- `_init_single_task_subtitles`: re-check `status = TRANSCRIPT_COMPLETED`,
locate the COMPLETED TRANSCRIPT step and its `transcript_id` (a missing or
falsy id aborts), skip if a SUBTITLES step exists, otherwise create the INIT
SUBTITLES step carrying the `transcript_id` and move the task to
`IN_SUBTITLES_PROCESS`. -/
def initSingleTaskSubtitles (taskStatus : TrackStatus) (steps : List StepRow)
    (nowIso : String) : Option (StepInsert × TrackStatus) :=
  if taskStatus = .transcriptCompleted then
    match steps.find? fun st =>
        st.kind = .transcript ∧ st.status = .completed with
    | none => none
    | some transcriptStep =>
      match transcriptStep.data.lookup "transcript_id" with
      | none => none
      | some transcriptId =>
        if transcriptId = "" then none
        else if (steps.find? fun st => st.kind = .subtitles).isSome then none
        else
          some ({ kind := .subtitles, status := .init,
                  data := some [("transcript_id", transcriptId),
                                ("initialized_at", nowIso)],
                  retries := some 0 }, .inSubtitlesProcess)
  else none

/-! ## The per-step transition relation (claim C3)

One step row as driven by the workers, sequentially: a row is claimed only
by a query requiring `retries < 5` (and, for submit/complete, a non-terminal
status); each failure increments `retries` by exactly one and promotes to
`FINAL_FAILED` exactly when the incremented counter reaches 5 (the error
handlers re-read by id without a status filter, so `fail` carries no status
precondition). -/

/-- One worker-induced transition of a `(status, retries)` step row. -/
inductive StepTransition : StepStatus × Nat → StepStatus × Nat → Prop where
  | submit (st : StepStatus) (r : Nat) :
      (st = .init ∨ st = .failed) → r < 5 →
      StepTransition (st, r) (.inProcess, r)
  | complete (st : StepStatus) (r : Nat) :
      (st = .init ∨ st = .inProcess ∨ st = .failed) → r < 5 →
      StepTransition (st, r) (.completed, r)
  | fail (st : StepStatus) (r : Nat) :
      r < 5 →
      StepTransition (st, r)
        (if 5 ≤ r + 1 then .finalFailed else .failed, r + 1)

/-- A step state reachable from the state every init worker creates
(`INIT`, `retries = 0`). -/
def StepReachable (s : StepStatus × Nat) : Prop :=
  Relation.ReflTransGen StepTransition (.init, 0) s

/-! ## Job matcher data model (`application/job_matcher/models/__init__.py`)

UUIDs are modelled as `Nat`; enum-valued columns (`specialist_type`,
`grade`) as `String`; timestamps as `Int` seconds. -/

/-- A `VacancyWithResumeMatchComment`. -/
structure MatchComment where
  text : String
  score : Int
  deriving DecidableEq, Repr

/-- A `JobMatcherVacancyWithResumeMatch` row. -/
structure MatchRow where
  vacancyId : Nat
  resumeId : Nat
  score : Int
  isRecommended : Bool
  comments : List MatchComment
  deriving DecidableEq, Repr

/-- A `JobMatcherVacancy` row (the columns the two workers read or write),
with its preloaded `matches` relation. -/
structure Vacancy where
  id : Nat
  text : String
  specialistType : String
  grade : String
  createdAt : Int
  processedAt : Option Int
  duplicateCheckedAt : Option Int
  duplicateCheckSuccess : Option Bool
  originalVacancyId : Option Nat
  /-- the preloaded `matches` relationship (`matches` is a Lean keyword) -/
  matchRows : List MatchRow
  deriving DecidableEq, Repr

/-- A `JobMatcherResume` row (the columns the matcher reads). -/
structure Resume where
  id : Nat
  text : String
  specialistType : String
  grade : String
  isActive : Bool
  employee : String
  deriving DecidableEq, Repr

/-- A `JobMatcherVacancyDuplicateCheckProcessLog` row. -/
structure DupCheckLog where
  vacancyId : Nat
  isDuplicate : Option Bool
  duplicateOfVacancyId : Option Nat
  deriving DecidableEq, Repr

/-! ## Duplicate checker (`check_vacancies_for_duplicates.py`) -/

/-- One `LLMService.check_vacancy_duplicate` call as `__check_if_duplicate`
sees it: the probability score, or any raised exception. -/
inductive DupCheckOutcome where
  | score (probabilityScore : Int)
  | raised
  deriving DecidableEq, Repr

/-- The durable effect of checking one vacancy: the updated vacancy row and
the appended process-log row. -/
structure DupCheckResult where
  vacancy : Vacancy
  log : DupCheckLog
  deriving DecidableEq, Repr

/-- `__mark_vacancy_as_duplicate`. -/
def markVacancyAsDuplicate (now : Int) (v original : Vacancy) :
    DupCheckResult :=
  { vacancy := { v with
      duplicateCheckedAt := some now
      duplicateCheckSuccess := some true
      originalVacancyId := some original.id }
    log := ⟨v.id, some true, some original.id⟩ }

/-- `__mark_vacancy_as_unique`. -/
def markVacancyAsUnique (now : Int) (v : Vacancy) : DupCheckResult :=
  { vacancy := { v with
      duplicateCheckedAt := some now
      duplicateCheckSuccess := some true }
    log := ⟨v.id, some false, none⟩ }

/-- `__mark_vacancy_check_failed`. -/
def markVacancyCheckFailed (now : Int) (v : Vacancy)
    (similarVacancyId : Nat) : DupCheckResult :=
  { vacancy := { v with
      duplicateCheckedAt := some now
      duplicateCheckSuccess := some false }
    log := ⟨v.id, none, some similarVacancyId⟩ }

/-- The similar-vacancies query of `__check_vacancy_for_duplicates`:
checked, successfully, not itself a duplicate, created in the two hours
(7200 s) before `v` and strictly before `v`, same grade and specialist
type, not `v` itself. -/
def similarVacancyFilter (v c : Vacancy) : Bool :=
  decide (c.duplicateCheckedAt ≠ none ∧ c.duplicateCheckSuccess = some true ∧
    c.originalVacancyId = none ∧ v.createdAt - 7200 ≤ c.createdAt ∧
    c.createdAt < v.createdAt ∧ c.grade = v.grade ∧
    c.specialistType = v.specialistType ∧ c.id ≠ v.id)

/-- The candidate loop of `__check_vacancy_for_duplicates`: first raised call
marks the check failed and stops; first score at or above the threshold
marks `v` a duplicate of that candidate and stops; an exhausted list marks
`v` unique (the code's separate no-candidates branch calls the same
`__mark_vacancy_as_unique`). -/
def checkVacancyLoop (threshold : Int) (now : Int)
    (llm : Vacancy → Vacancy → DupCheckOutcome) (v : Vacancy) :
    List Vacancy → DupCheckResult
  | [] => markVacancyAsUnique now v
  | c :: rest =>
    match llm v c with
    | .raised => markVacancyCheckFailed now v c.id
    | .score p =>
      if threshold ≤ p then markVacancyAsDuplicate now v c
      else checkVacancyLoop threshold now llm v rest

/-- `__check_vacancy_for_duplicates` over the table `rows` (the candidate
query's `ORDER BY created_at ASC` is modelled by the stable sort). -/
def checkVacancyForDuplicates (threshold : Int) (now : Int)
    (llm : Vacancy → Vacancy → DupCheckOutcome) (rows : List Vacancy)
    (v : Vacancy) : DupCheckResult :=
  checkVacancyLoop threshold now llm v
    (pySorted (fun a b => a.createdAt ≤ b.createdAt)
      (rows.filter (similarVacancyFilter v)))

/-! ### Specification-side duplicate checker (spec §4.9, claim C6) -/

/-- The claim's candidate set: matching `specialist_type` and `grade`,
`duplicate_check_success = true`, `original_vacancy_id` null, created within
the two hours preceding `v.created_at` and strictly earlier than `v`. -/
def claimCandidateFilter (v c : Vacancy) : Bool :=
  decide (c.specialistType = v.specialistType ∧ c.grade = v.grade ∧
    c.duplicateCheckSuccess = some true ∧ c.originalVacancyId = none ∧
    v.createdAt - 7200 ≤ c.createdAt ∧ c.createdAt < v.createdAt)

/-- The claim's loop, oldest candidate first: a raised provider call sets
`duplicate_check_success = false` and `duplicate_checked_at` and stops; the
first candidate scoring at least the threshold becomes the original with
both flags set; exhaustion sets the same flags with
`original_vacancy_id` left as it is. -/
def claimCheckLoop (threshold : Int) (now : Int)
    (llm : Vacancy → Vacancy → DupCheckOutcome) (v : Vacancy) :
    List Vacancy → DupCheckResult
  | [] =>
    { vacancy := { v with
        duplicateCheckedAt := some now, duplicateCheckSuccess := some true }
      log := ⟨v.id, some false, none⟩ }
  | c :: rest =>
    match llm v c with
    | .raised =>
      { vacancy := { v with
          duplicateCheckedAt := some now
          duplicateCheckSuccess := some false }
        log := ⟨v.id, none, some c.id⟩ }
    | .score p =>
      if threshold ≤ p then
        { vacancy := { v with
            duplicateCheckedAt := some now
            duplicateCheckSuccess := some true
            originalVacancyId := some c.id }
          log := ⟨v.id, some true, some c.id⟩ }
      else claimCheckLoop threshold now llm v rest

/-- The claim's whole per-vacancy check: the claim's candidate set, oldest
first, run through the claim's loop. -/
def claimCheckVacancy (threshold : Int) (now : Int)
    (llm : Vacancy → Vacancy → DupCheckOutcome) (rows : List Vacancy)
    (v : Vacancy) : DupCheckResult :=
  claimCheckLoop threshold now llm v
    (pySorted (fun a b => a.createdAt ≤ b.createdAt)
      (rows.filter (claimCandidateFilter v)))

/-! ## Vacancy–resume matcher (`match_vacancies_with_resumes.py`) -/

/-- One `LLMService.try_match_vacancy_and_resume` call: score and comments,
or any raised exception (carried as its string form). -/
inductive LlmMatchOutcome where
  | ok (score : Int) (comments : List MatchComment)
  | raised (e : String)
  deriving DecidableEq, Repr

/-- Whether the call returned rather than raised. -/
def LlmMatchOutcome.isOk : LlmMatchOutcome → Bool
  | .ok _ _ => true
  | .raised _ => false

/-- `__get_match_result`: a specialist-type mismatch short-circuits to score
1 without calling the language model. -/
def getMatchResult (llm : Vacancy → Resume → LlmMatchOutcome) (v : Vacancy)
    (r : Resume) : LlmMatchOutcome :=
  if v.specialistType ≠ r.specialistType then
    .ok 1 [⟨"Тип специалиста не совпадает с типом вакансии", 10⟩]
  else llm v r

/-- The durable effect of a completed `__match_vacancy_with_resume` on one
(vacancy, resume) pair. -/
inductive PairEffect where
  /-- a Match row for the pair already exists: early return -/
  | skipped
  /-- a Match row was persisted; `notified` is whether
  `notify_about_match_if_need` sent a notification -/
  | created (m : MatchRow) (notified : Bool)
  deriving DecidableEq, Repr

/-- `__match_vacancy_with_resume` with
`__calculate_is_recommended_match` and `notify_about_match_if_need`.
The function's `except MatchVacancyAndResumeError | Exception` clause is an
invalid except target (a `types.UnionType`; on Python 3.11, which this code
needs for `datetime.UTC`, matching it raises
`TypeError: catching classes that do not inherit from BaseException is not
allowed`), so a raising LLM call escapes uncaught: the log-only branch in
the source is dead code, no process-log row is written, and the exception
propagates — modelled as `.error`. -/
def matchVacancyWithResume (threshold : Int)
    (llm : Vacancy → Resume → LlmMatchOutcome) (v : Vacancy) (r : Resume) :
    Except String PairEffect :=
  if (v.matchRows.find? fun m => m.resumeId == r.id).isSome then .ok .skipped
  else
    match getMatchResult llm v r with
    | .raised e => .error e
    | .ok score comments =>
      let isRecommended := decide (threshold ≤ score)
      .ok (.created ⟨v.id, r.id, score, isRecommended, comments⟩ isRecommended)

/-- The `asyncio.gather` over the per-resume coroutines, determinised to
left-to-right order: the first escaping exception propagates out of the
gather (pairs after it may or may not have committed in the program; the
sequential model keeps the earlier ones). -/
def matchPairsGather (threshold : Int)
    (llm : Vacancy → Resume → LlmMatchOutcome) (v : Vacancy) :
    List Resume → Except String (List PairEffect)
  | [] => .ok []
  | r :: rest =>
    match matchVacancyWithResume threshold llm v r with
    | .error e => .error e
    | .ok eff =>
      match matchPairsGather threshold llm v rest with
      | .error e => .error e
      | .ok effects => .ok (eff :: effects)

/-- `__match_vacancy_with_resumes`: the per-resume gather runs only when
`original_vacancy_id` is null; `processed_at` is set afterwards — but only
when the gather did not raise: an escaped exception propagates before the
`processed_at` assignment is reached, leaving it null. -/
def matchVacancyWithResumes (threshold : Int) (now : Int)
    (llm : Vacancy → Resume → LlmMatchOutcome) (v : Vacancy)
    (resumes : List Resume) : Except String (List PairEffect × Vacancy) :=
  if v.originalVacancyId = none then
    match matchPairsGather threshold llm v resumes with
    | .error e => .error e
    | .ok effects => .ok (effects, { v with processedAt := some now })
  else .ok ([], { v with processedAt := some now })

/-- The resume claim of `match_vacancies_with_resumes`: only active
resumes. -/
def selectActiveResumes (resumes : List Resume) : List Resume :=
  resumes.filter (·.isActive)

/-! # Theorems -/

/-- The code's per-cue loop coincides with the spec's per-cue loop once the
word identity is the code's id string. -/
theorem createTranscriptLoop_eq_claimFuseLoop (ws : List WordItem) :
    ∀ (subs : List SubtitleItem) (used : List String),
      createTranscriptLoop ws subs used = claimFuseLoop getWordId ws subs used := by
  intro subs
  induction subs with
  | nil => intro used; rfl
  | cons s rest ih =>
    intro used
    simp only [createTranscriptLoop, claimFuseLoop, findWordsForSubtitle,
      claimCollect, adjustWordStarts, ih]

/-- C1 (amended): for non-empty word and subtitle lists,
`TranscriptService.create_transcript` emits exactly one line per cue in
ascending cue-start order, each line carrying the cue's text/start/end and
exactly the not-yet-consumed words whose end lies in `[cue.start, cue.end]`
in the order found, with starts clamped to the cue start and ends unchanged,
consumed words being unavailable to later cues — where words are identified
by the string `"{text}_{start}_{end}_{speaker or 'unknown'}"` rather than by
the tuple (text, start, end, speaker). -/
theorem C1_create_transcript_fuses_words_by_string_id
    (words : List WordItem) (subtitles : List SubtitleItem)
    (_hw : words ≠ []) (_hs : subtitles ≠ []) :
    createTranscript words subtitles = claimFuseWith getWordId words subtitles := by
  unfold createTranscript claimFuseWith
  split
  · rfl
  · exact createTranscriptLoop_eq_claimFuseLoop _ _ _

/-- A concrete non-empty instance of `C1_create_transcript_fuses_words_by_string_id`
(the spec's happy-path words and cue). -/
theorem C1_witness :
    ([⟨"hello", 0, 500, 1, none⟩, ⟨"world", 600, 1100, 1, none⟩] ≠ ([] : List WordItem)) ∧
      ([⟨"hello world", 0, 1200⟩] ≠ ([] : List SubtitleItem)) ∧
      createTranscript [⟨"hello", 0, 500, 1, none⟩, ⟨"world", 600, 1100, 1, none⟩]
          [⟨"hello world", 0, 1200⟩] =
        claimFuseWith getWordId
          [⟨"hello", 0, 500, 1, none⟩, ⟨"world", 600, 1100, 1, none⟩]
          [⟨"hello world", 0, 1200⟩] :=
  ⟨by decide, by decide,
    C1_create_transcript_fuses_words_by_string_id _ _ (by decide) (by decide)⟩

/-- C1 as stated is false: with tuple identity the words
`("a", 1, 2, speaker "3_unknown")` and `("a_1", 2, 3, no speaker)` are
distinct, but their id strings are both `"a_1_2_3_unknown"`, so consuming
the first in the first cue wrongly blocks the second from the second cue. -/
theorem C1_counterexample :
    createTranscript
        [⟨"a", 1, 2, 1, some "3_unknown"⟩, ⟨"a_1", 2, 3, 1, none⟩]
        [⟨"line one", 0, 2⟩, ⟨"line two", 2, 4⟩] ≠
      claimFuseWith wordKey
        [⟨"a", 1, 2, 1, some "3_unknown"⟩, ⟨"a_1", 2, 3, 1, none⟩]
        [⟨"line one", 0, 2⟩, ⟨"line two", 2, 4⟩] := by
  decide

/-- C2: on a per-row exception, `_handle_result_error` and
`_handle_subtitles_error` increment the step's attempt counter by one; if
the incremented counter reaches `MAX_ATTEMPTS` (5) the step becomes
`FINAL_FAILED`, the parent task becomes `FAILED` and an error notification
is emitted; otherwise the step becomes `FAILED` and the task and
notifications are untouched; in both cases a log entry is appended carrying
the error kind, message and provider response context. -/
theorem C2_error_handler_retry_policy (e : ErrInfo) (s : WorkerState) :
    ((handleResultError e s).step.retries = s.step.retries + 1 ∧
      (handleSubtitlesError e s).step.retries = s.step.retries + 1) ∧
    (5 ≤ s.step.retries + 1 →
      (handleResultError e s).step.status = .finalFailed ∧
      (handleResultError e s).task.status = .failed ∧
      (handleResultError e s).notifications =
        s.notifications ++ ["Final split result failure"] ∧
      (handleSubtitlesError e s).step.status = .finalFailed ∧
      (handleSubtitlesError e s).task.status = .failed ∧
      (handleSubtitlesError e s).notifications =
        s.notifications ++ ["Final subtitles result failure"]) ∧
    (s.step.retries + 1 < 5 →
      (handleResultError e s).step.status = .failed ∧
      (handleResultError e s).task = s.task ∧
      (handleResultError e s).notifications = s.notifications ∧
      (handleSubtitlesError e s).step.status = .failed ∧
      (handleSubtitlesError e s).task = s.task ∧
      (handleSubtitlesError e s).notifications = s.notifications) ∧
    ((handleResultError e s).logs = s.logs ++
        [⟨e.errType, e.message, some (s.step.retries + 1), e.providerContext⟩] ∧
      (handleSubtitlesError e s).logs = s.logs ++
        [⟨e.errType, e.message, some (s.step.retries + 1), e.providerContext⟩]) := by
  by_cases h5 : 5 ≤ s.step.retries + 1 <;>
    simp [handleResultError, handleSubtitlesError, h5, Nat.lt_of_not_le,
      Nat.not_le_of_lt, Nat.lt_irrefl]

/-- Concrete instances of `C2_error_handler_retry_policy`: the final branch
at 4 prior attempts and the retryable branch at 0 prior attempts. -/
theorem C2_witness :
    (5 ≤ (4 : Nat) + 1 ∧
      (handleResultError ⟨"SplitResultsNotFoundError", "not found", some "ctx"⟩
          ⟨⟨.split, .inProcess, 4, [("lalal_file_id", "f1")], none⟩,
            ⟨.inSplitProcess, none, none, none, none⟩, [], []⟩).step.status =
        .finalFailed ∧
      (handleResultError ⟨"SplitResultsNotFoundError", "not found", some "ctx"⟩
          ⟨⟨.split, .inProcess, 4, [("lalal_file_id", "f1")], none⟩,
            ⟨.inSplitProcess, none, none, none, none⟩, [], []⟩).task.status =
        .failed) ∧
    ((0 : Nat) + 1 < 5 ∧
      (handleSubtitlesError ⟨"AssemblyAISubtitlesError", "boom", none⟩
          ⟨⟨.subtitles, .inProcess, 0, [("transcript_id", "t1")], none⟩,
            ⟨.inSubtitlesProcess, none, none, none, none⟩, [], []⟩).step.status =
        .failed) := by
  refine ⟨⟨by decide, ?_, ?_⟩, by decide, ?_⟩
  · exact ((C2_error_handler_retry_policy
      ⟨"SplitResultsNotFoundError", "not found", some "ctx"⟩
      ⟨⟨.split, .inProcess, 4, [("lalal_file_id", "f1")], none⟩,
        ⟨.inSplitProcess, none, none, none, none⟩, [], []⟩).2.1 (by decide)).1
  · exact ((C2_error_handler_retry_policy
      ⟨"SplitResultsNotFoundError", "not found", some "ctx"⟩
      ⟨⟨.split, .inProcess, 4, [("lalal_file_id", "f1")], none⟩,
        ⟨.inSplitProcess, none, none, none, none⟩, [], []⟩).2.1 (by decide)).2.1
  · exact ((C2_error_handler_retry_policy
      ⟨"AssemblyAISubtitlesError", "boom", none⟩
      ⟨⟨.subtitles, .inProcess, 0, [("transcript_id", "t1")], none⟩,
        ⟨.inSubtitlesProcess, none, none, none, none⟩, [], []⟩).2.2.1
      (by decide)).2.2.2.1

/-- C3: every step state reachable under the workers' step relation (claims
require `retries < 5`; each failure increments `retries` by exactly one and
promotes to `FINAL_FAILED` exactly when the counter reaches 5) satisfies
`retries ≤ 5`, and `FINAL_FAILED` states have `retries = 5` exactly. -/
theorem C3_attempts_invariant (s : StepStatus × Nat) (h : StepReachable s) :
    s.2 ≤ 5 ∧ (s.1 = .finalFailed → s.2 = 5) := by
  induction h with
  | refl => exact ⟨by decide, by decide⟩
  | tail hr t ih =>
    cases t with
    | submit st r hst hr5 =>
      exact ⟨Nat.le_of_lt hr5, fun hh => nomatch hh⟩
    | complete st r hst hr5 =>
      exact ⟨Nat.le_of_lt hr5, fun hh => nomatch hh⟩
    | fail st r hr5 =>
      refine ⟨Nat.succ_le_of_lt hr5, ?_⟩
      intro hfin
      by_cases h5 : 5 ≤ r + 1
      · exact Nat.le_antisymm (Nat.succ_le_of_lt hr5) h5
      · rw [if_neg h5] at hfin
        exact nomatch hfin

/-- A concrete reachable state (one failure after init) satisfying the
invariant of `C3_attempts_invariant`. -/
theorem C3_witness :
    StepReachable (.failed, 1) ∧
      (1 : Nat) ≤ 5 ∧ (StepStatus.failed = .finalFailed → (1 : Nat) = 5) := by
  have t : StepTransition (.init, 0) (.failed, 1) := by
    simpa using StepTransition.fail .init 0 (by decide)
  have hr : StepReachable (.failed, 1) := Relation.ReflTransGen.single t
  exact ⟨hr, (C3_attempts_invariant _ hr).1, (C3_attempts_invariant _ hr).2⟩

/-- C4: on a SPLIT step already advanced to `COMPLETED`, a second run's
success path is indeed a no-op (the locked re-check fails), but when the
second run's external call raises, `_handle_result_error` — whose locked
re-read has no status filter — mutates the terminal step anyway: it
increments `retries` to 1 and demotes the `COMPLETED` step to `FAILED`. -/
theorem C4_completed_step_mutated_by_error_handler :
    (getSingleResultTrackSplitting (.success "v2" "i2") 200
        ⟨⟨.split, .completed, 0, [("lalal_file_id", "f1")], some 100⟩,
          ⟨.splitCompleted, some "v", some "i", none, none⟩, [], []⟩ =
      ⟨⟨.split, .completed, 0, [("lalal_file_id", "f1")], some 100⟩,
        ⟨.splitCompleted, some "v", some "i", none, none⟩, [], []⟩) ∧
    ((getSingleResultTrackSplitting
        (.raised ⟨"TimeoutError", "request timed out", none⟩) 200
        ⟨⟨.split, .completed, 0, [("lalal_file_id", "f1")], some 100⟩,
          ⟨.splitCompleted, some "v", some "i", none, none⟩, [], []⟩).step.status
      = .failed) ∧
    ((getSingleResultTrackSplitting
        (.raised ⟨"TimeoutError", "request timed out", none⟩) 200
        ⟨⟨.split, .completed, 0, [("lalal_file_id", "f1")], some 100⟩,
          ⟨.splitCompleted, some "v", some "i", none, none⟩, [], []⟩).step.retries
      = 1) := by
  decide

/-- C5: a not-ready provider outcome — splitter state `progress`, or an ASR
status that is neither `completed` nor `error` — leaves the worker state
(step, task, logs, notifications) entirely unchanged. -/
theorem C5_not_ready_leaves_state_untouched (s : WorkerState) (now : Nat) :
    getSingleResultTrackSplitting .progress now s = s ∧
      ∀ (st : TranscriptStatus) (words : List WordItem) (errorMsg : Option String),
        st ≠ .completed → st ≠ .error →
        getSingleTranscriptionResult (.got st words errorMsg) now s = s := by
  refine ⟨rfl, ?_⟩
  intro st words errorMsg h1 h2
  simp only [getSingleTranscriptionResult]
  rw [if_pos ⟨h1, h2⟩]

/-- A concrete instance of `C5_not_ready_leaves_state_untouched`: an ASR
`processing` response leaves a claimed transcript step untouched. -/
theorem C5_witness :
    (TranscriptStatus.processing ≠ .completed) ∧
      (TranscriptStatus.processing ≠ .error) ∧
      getSingleTranscriptionResult (.got .processing [] none) 100
          ⟨⟨.transcript, .inProcess, 0, [("transcript_id", "tr1")], none⟩,
            ⟨.inTranscriptProcess, some "v", some "i", none, none⟩, [], []⟩ =
        ⟨⟨.transcript, .inProcess, 0, [("transcript_id", "tr1")], none⟩,
          ⟨.inTranscriptProcess, some "v", some "i", none, none⟩, [], []⟩ :=
  ⟨by decide, by decide,
    (C5_not_ready_leaves_state_untouched _ 100).2 .processing [] none
      (by decide) (by decide)⟩

/-- The candidate loops of the code and of the spec agree. -/
theorem checkLoop_eq_claimLoop (threshold now : Int)
    (llm : Vacancy → Vacancy → DupCheckOutcome) (v : Vacancy) :
    ∀ l, checkVacancyLoop threshold now llm v l =
      claimCheckLoop threshold now llm v l := by
  intro l
  induction l with
  | nil => rfl
  | cons c rest ih =>
    simp only [checkVacancyLoop, claimCheckLoop]
    cases llm v c with
    | raised => rfl
    | score p =>
      dsimp only
      split
      · rfl
      · exact ih

/-- On a table where `duplicate_check_success = true` rows are also stamped
`duplicate_checked_at` and ids are unique, the code's candidate query equals
the claim's candidate set. -/
theorem similarFilter_eq_claimFilter (rows : List Vacancy) (v : Vacancy)
    (hinv : ∀ c ∈ rows, c.duplicateCheckSuccess = some true →
      c.duplicateCheckedAt ≠ none)
    (hid : ∀ c ∈ rows, c.id = v.id → c = v) :
    rows.filter (similarVacancyFilter v) =
      rows.filter (claimCandidateFilter v) := by
  apply List.filter_congr
  intro c hc
  unfold similarVacancyFilter claimCandidateFilter
  rw [decide_eq_decide]
  constructor
  · rintro ⟨h1, h2, h3, h4, h5, h6, h7, h8⟩
    exact ⟨h7, h6, h2, h3, h4, h5⟩
  · rintro ⟨h7, h6, h2, h3, h4, h5⟩
    refine ⟨hinv c hc h2, h2, h3, h4, h5, h6, h7, ?_⟩
    intro hid'
    have hcv := hid c hc hid'
    subst hcv
    exact absurd h5 (lt_irrefl _)

/-- C6: on any table whose rows with `duplicate_check_success = true` also
carry `duplicate_checked_at` (the checker always writes them together) and
whose ids are unique, `__check_vacancy_for_duplicates` behaves exactly as
the spec: candidates are the vacancies with matching specialist type and
grade, `duplicate_check_success = true`, null `original_vacancy_id`, created
within the two hours preceding the vacancy and strictly earlier; they are
compared oldest first; the first candidate at or above the threshold becomes
the original with both flags set and no further candidates consulted; an
exhausted list sets both flags with `original_vacancy_id` untouched; and a
raised provider call sets `duplicate_check_success = false`,
`duplicate_checked_at`, and stops. -/
theorem C6_duplicate_checker_matches_spec (threshold now : Int)
    (llm : Vacancy → Vacancy → DupCheckOutcome) (rows : List Vacancy)
    (v : Vacancy)
    (hinv : ∀ c ∈ rows, c.duplicateCheckSuccess = some true →
      c.duplicateCheckedAt ≠ none)
    (hid : ∀ c ∈ rows, c.id = v.id → c = v) :
    checkVacancyForDuplicates threshold now llm rows v =
      claimCheckVacancy threshold now llm rows v := by
  unfold checkVacancyForDuplicates claimCheckVacancy
  rw [similarFilter_eq_claimFilter rows v hinv hid]
  exact checkLoop_eq_claimLoop threshold now llm v _

/-- A concrete instance of `C6_duplicate_checker_matches_spec`: the spec's
duplicate-detection scenario (candidate one hour older, score 8 against
threshold 7) resolves the new vacancy as a duplicate of the old one. -/
theorem C6_witness :
    (∀ c ∈ [(⟨1, "python dev", "backend", "middle", 0, none, some 10,
        some true, none, []⟩ : Vacancy)],
      c.duplicateCheckSuccess = some true → c.duplicateCheckedAt ≠ none) ∧
    (∀ c ∈ [(⟨1, "python dev", "backend", "middle", 0, none, some 10,
        some true, none, []⟩ : Vacancy)],
      c.id = (⟨2, "senior python dev", "backend", "middle", 3600, none, none,
        none, none, []⟩ : Vacancy).id →
      c = ⟨2, "senior python dev", "backend", "middle", 3600, none, none,
        none, none, []⟩) ∧
    checkVacancyForDuplicates 7 5000 (fun _ _ => .score 8)
        [⟨1, "python dev", "backend", "middle", 0, none, some 10,
          some true, none, []⟩]
        ⟨2, "senior python dev", "backend", "middle", 3600, none, none,
          none, none, []⟩ =
      claimCheckVacancy 7 5000 (fun _ _ => .score 8)
        [⟨1, "python dev", "backend", "middle", 0, none, some 10,
          some true, none, []⟩]
        ⟨2, "senior python dev", "backend", "middle", 3600, none, none,
          none, none, []⟩ ∧
    (checkVacancyForDuplicates 7 5000 (fun _ _ => .score 8)
        [⟨1, "python dev", "backend", "middle", 0, none, some 10,
          some true, none, []⟩]
        ⟨2, "senior python dev", "backend", "middle", 3600, none, none,
          none, none, []⟩).vacancy.originalVacancyId = some 1 :=
  ⟨by decide, by decide,
    C6_duplicate_checker_matches_spec 7 5000 _ _ _ (by decide) (by decide),
    by decide⟩

/-- C7: a vacancy with a non-null `original_vacancy_id` claimed by the match
worker produces no per-resume effects whatsoever — in particular no Match
row with it as `vacancy_id` — and its row is changed only by setting
`processed_at` (no exception can escape, since the gather is skipped). -/
theorem C7_duplicate_vacancy_never_matched (threshold now : Int)
    (llm : Vacancy → Resume → LlmMatchOutcome) (v : Vacancy)
    (resumes : List Resume) (h : v.originalVacancyId ≠ none) :
    matchVacancyWithResumes threshold now llm v resumes =
      .ok ([], { v with processedAt := some now }) := by
  unfold matchVacancyWithResumes
  rw [if_neg h]

/-- A concrete instance of `C7_duplicate_vacancy_never_matched`. -/
theorem C7_witness :
    ((⟨2, "dup", "backend", "middle", 50, none, some 10, some true, some 1, []⟩ :
        Vacancy).originalVacancyId ≠ none) ∧
      matchVacancyWithResumes 7 100 (fun _ _ => .ok 9 [])
          ⟨2, "dup", "backend", "middle", 50, none, some 10, some true, some 1, []⟩
          [⟨5, "resume", "backend", "middle", true, "emp"⟩] =
        .ok ([], ⟨2, "dup", "backend", "middle", 50, some 100, some 10,
          some true, some 1, []⟩) :=
  ⟨by decide,
    C7_duplicate_vacancy_never_matched 7 100 (fun _ _ => .ok 9 []) _ _
      (by decide)⟩

/-- When no pair's `getMatchResult` raises, the gather returns all effects,
and every pair's effect is among them. -/
theorem matchPairsGather_ok (threshold : Int)
    (llm : Vacancy → Resume → LlmMatchOutcome) (v : Vacancy) :
    ∀ rs : List Resume,
      (∀ r' ∈ rs, (getMatchResult llm v r').isOk = true) →
      ∃ effects, matchPairsGather threshold llm v rs = .ok effects ∧
        ∀ r' ∈ rs, ∀ eff,
          matchVacancyWithResume threshold llm v r' = .ok eff →
          eff ∈ effects := by
  intro rs
  induction rs with
  | nil => exact fun _ => ⟨[], rfl, by simp⟩
  | cons r rest ih =>
    intro hok
    have hhead : ∃ eff₀, matchVacancyWithResume threshold llm v r = .ok eff₀ := by
      unfold matchVacancyWithResume
      split
      · exact ⟨.skipped, rfl⟩
      · cases hgm : getMatchResult llm v r with
        | raised e =>
          have := hok r (List.mem_cons_self r rest)
          rw [hgm] at this
          exact nomatch this
        | ok score comments => exact ⟨_, rfl⟩
    obtain ⟨eff₀, heff₀⟩ := hhead
    obtain ⟨effects, hgather, hmem⟩ :=
      ih fun r' hr' => hok r' (List.mem_cons_of_mem r hr')
    refine ⟨eff₀ :: effects, ?_, ?_⟩
    · unfold matchPairsGather
      rw [heff₀, hgather]
    · intro r' hr' eff heff
      rcases List.mem_cons.mp hr' with h | h
      · subst h
        rw [heff₀] at heff
        rw [Except.ok.injEq] at heff
        exact heff ▸ List.mem_cons_self _ _
      · exact List.mem_cons_of_mem _ (hmem r' h eff heff)

/-- C8: for a claimed non-duplicate vacancy and any active resume with no
existing Match row for the pair, provided no pair's provider call raises
(a raising call escapes the broken `except A | B` clause, so no row and no
`processed_at` would be written), the worker persists a Match whose score is
1 on a specialist-type mismatch and the language-model score otherwise,
whose `is_recommended` holds exactly when the score reaches the threshold,
notifies exactly when `is_recommended` holds, and sets the vacancy's
`processed_at` after all the resumes have been processed. -/
theorem C8_match_worker_scores_and_notifies (threshold now : Int)
    (llm : Vacancy → Resume → LlmMatchOutcome) (v : Vacancy)
    (resumes : List Resume) (r : Resume)
    (hv : v.originalVacancyId = none)
    (hr : r ∈ selectActiveResumes resumes)
    (hnoex : ∀ m ∈ v.matchRows, m.resumeId ≠ r.id)
    (hok : ∀ r' ∈ selectActiveResumes resumes,
      (getMatchResult llm v r').isOk = true) :
    (∃ effects,
      matchVacancyWithResumes threshold now llm v (selectActiveResumes resumes)
          = .ok (effects, { v with processedAt := some now }) ∧
        ∀ eff, matchVacancyWithResume threshold llm v r = .ok eff →
          eff ∈ effects) ∧
    (v.specialistType ≠ r.specialistType →
      matchVacancyWithResume threshold llm v r =
        .ok (.created ⟨v.id, r.id, 1, decide (threshold ≤ 1),
            [⟨"Тип специалиста не совпадает с типом вакансии", 10⟩]⟩
          (decide (threshold ≤ 1)))) ∧
    (∀ score comments, v.specialistType = r.specialistType →
      llm v r = .ok score comments →
      matchVacancyWithResume threshold llm v r =
        .ok (.created ⟨v.id, r.id, score, decide (threshold ≤ score), comments⟩
          (decide (threshold ≤ score)))) ∧
    (∀ m notified,
      matchVacancyWithResume threshold llm v r = .ok (.created m notified) →
      ((m.isRecommended = true) ↔ threshold ≤ m.score) ∧
      notified = m.isRecommended) := by
  have hfind : (v.matchRows.find? fun m => m.resumeId == r.id) = none := by
    rw [List.find?_eq_none]
    intro m hm
    simp [hnoex m hm]
  refine ⟨?_, ?_, ?_, ?_⟩
  · obtain ⟨effects, hgather, hmem⟩ :=
      matchPairsGather_ok threshold llm v (selectActiveResumes resumes) hok
    refine ⟨effects, ?_, fun eff heff => hmem r hr eff heff⟩
    unfold matchVacancyWithResumes
    rw [if_pos hv, hgather]
  · intro hne
    simp [matchVacancyWithResume, getMatchResult, hfind, hne]
  · intro score comments heq hllm
    simp [matchVacancyWithResume, getMatchResult, hfind, heq, hllm]
  · intro m notified hcr
    unfold matchVacancyWithResume at hcr
    rw [hfind] at hcr
    simp only [Option.isSome_none, Bool.false_eq_true, if_false] at hcr
    cases hgm : getMatchResult llm v r with
    | raised e => rw [hgm] at hcr; exact nomatch hcr
    | ok score comments =>
      rw [hgm] at hcr
      simp only [Except.ok.injEq, PairEffect.created.injEq] at hcr
      obtain ⟨hm, hn⟩ := hcr
      subst hm
      subst hn
      exact ⟨by simp, rfl⟩

/-- A concrete instance of `C8_match_worker_scores_and_notifies`: the spec's
not-recommended scenario (backend vacancy, frontend resume) yields a score-1
Match and no notification, and `processed_at` is set; the LLM is never
called, so the no-raise hypothesis holds. -/
theorem C8_witness :
    ((⟨3, "backend vacancy", "backend", "middle", 0, none, some 10, some true,
        none, []⟩ : Vacancy).originalVacancyId = none) ∧
    ((⟨5, "frontend resume", "frontend", "middle", true, "R. Front"⟩ : Resume) ∈
      selectActiveResumes
        [⟨5, "frontend resume", "frontend", "middle", true, "R. Front"⟩]) ∧
    (∀ r' ∈ selectActiveResumes
        [(⟨5, "frontend resume", "frontend", "middle", true, "R. Front"⟩ : Resume)],
      (getMatchResult (fun _ _ => .raised "never called")
        ⟨3, "backend vacancy", "backend", "middle", 0, none, some 10, some true,
          none, []⟩ r').isOk = true) ∧
    (∃ effects,
      matchVacancyWithResumes 7 100 (fun _ _ => .raised "never called")
          ⟨3, "backend vacancy", "backend", "middle", 0, none, some 10, some true,
            none, []⟩
          (selectActiveResumes
            [⟨5, "frontend resume", "frontend", "middle", true, "R. Front"⟩]) =
        .ok (effects, ⟨3, "backend vacancy", "backend", "middle", 0, some 100,
          some 10, some true, none, []⟩) ∧
      ∀ eff, matchVacancyWithResume 7 (fun _ _ => .raised "never called")
          ⟨3, "backend vacancy", "backend", "middle", 0, none, some 10, some true,
            none, []⟩
          ⟨5, "frontend resume", "frontend", "middle", true, "R. Front"⟩ =
          .ok eff →
        eff ∈ effects) ∧
    matchVacancyWithResume 7 (fun _ _ => .raised "never called")
        ⟨3, "backend vacancy", "backend", "middle", 0, none, some 10, some true,
          none, []⟩
        ⟨5, "frontend resume", "frontend", "middle", true, "R. Front"⟩ =
      .ok (.created ⟨3, 5, 1, decide ((7:Int) ≤ 1),
          [⟨"Тип специалиста не совпадает с типом вакансии", 10⟩]⟩
        (decide ((7:Int) ≤ 1))) := by
  refine ⟨by decide, by decide, by decide, ?_, ?_⟩
  · exact (C8_match_worker_scores_and_notifies 7 100
      (fun _ _ => .raised "never called")
      ⟨3, "backend vacancy", "backend", "middle", 0, none, some 10, some true,
        none, []⟩
      [⟨5, "frontend resume", "frontend", "middle", true, "R. Front"⟩]
      ⟨5, "frontend resume", "frontend", "middle", true, "R. Front"⟩
      (by decide) (by decide) (by decide) (by decide)).1
  · exact (C8_match_worker_scores_and_notifies 7 100
      (fun _ _ => .raised "never called")
      ⟨3, "backend vacancy", "backend", "middle", 0, none, some 10, some true,
        none, []⟩
      [⟨5, "frontend resume", "frontend", "middle", true, "R. Front"⟩]
      ⟨5, "frontend resume", "frontend", "middle", true, "R. Front"⟩
      (by decide) (by decide) (by decide) (by decide)).2.1 (by decide)

/-- C9 (amended): a VTT payload none of whose blocks parses as a cue yields
an empty cue list from the parser, and the SUBTITLES step is then marked
`COMPLETED` with an empty subtitle list and an unchanged attempt counter
(malformed blocks are skipped; the retry policy is not invoked). -/
theorem C9_unparseable_payload_completes_empty (vtt : List Char)
    (s : WorkerState) (now : Nat)
    (hall : ∀ b ∈ pySplit ('\n' :: ['\n']) (pyStrip vtt), parseVttBlock b = none)
    (hclaimed : s.step.status = .init ∨ s.step.status = .inProcess ∨
      s.step.status = .failed) :
    parseVttSubtitles vtt = [] ∧
      (getSingleSubtitlesResult (.fetched vtt) now s).step.status = .completed ∧
      (getSingleSubtitlesResult (.fetched vtt) now s).task.subtitles = some [] ∧
      (getSingleSubtitlesResult (.fetched vtt) now s).step.retries =
        s.step.retries := by
  have hparse : parseVttSubtitles vtt = [] := by
    unfold parseVttSubtitles
    dsimp only
    rw [List.filterMap_eq_nil_iff.mpr hall]
    rfl
  refine ⟨hparse, ?_, ?_, ?_⟩ <;>
  · simp only [getSingleSubtitlesResult, hparse, List.map_nil]
    rw [if_pos hclaimed]

/-- A concrete instance of `C9_unparseable_payload_completes_empty` on a
payload with no parseable block. -/
theorem C9_witness :
    (∀ b ∈ pySplit ('\n' :: ['\n'])
        (pyStrip "complete garbage, not a VTT payload".data),
      parseVttBlock b = none) ∧
    parseVttSubtitles "complete garbage, not a VTT payload".data = [] ∧
    (getSingleSubtitlesResult
        (.fetched "complete garbage, not a VTT payload".data) 100
        ⟨⟨.subtitles, .inProcess, 0, [("transcript_id", "t1")], none⟩,
          ⟨.inSubtitlesProcess, some "v", some "i", some [], none⟩,
          [], []⟩).step.status = .completed := by
  refine ⟨by decide, ?_, ?_⟩
  · exact (C9_unparseable_payload_completes_empty _
      ⟨⟨.subtitles, .inProcess, 0, [("transcript_id", "t1")], none⟩,
        ⟨.inSubtitlesProcess, some "v", some "i", some [], none⟩, [], []⟩
      100 (by decide) (by decide)).1
  · exact (C9_unparseable_payload_completes_empty _
      ⟨⟨.subtitles, .inProcess, 0, [("transcript_id", "t1")], none⟩,
        ⟨.inSubtitlesProcess, some "v", some "i", some [], none⟩, [], []⟩
      100 (by decide) (by decide)).2.1

/-- C9 as stated is false: on a completely unparseable payload the step does
not transition to `FAILED` — it is marked `COMPLETED` with empty subtitles
and an unchanged attempt counter. -/
theorem C9_counterexample :
    parseVttSubtitles "complete garbage, not a VTT payload".data = [] ∧
    (getSingleSubtitlesResult
        (.fetched "complete garbage, not a VTT payload".data) 100
        ⟨⟨.subtitles, .inProcess, 0, [("transcript_id", "t1")], none⟩,
          ⟨.inSubtitlesProcess, some "v", some "i", some [], none⟩,
          [], []⟩).step.status ≠ .failed ∧
    (getSingleSubtitlesResult
        (.fetched "complete garbage, not a VTT payload".data) 100
        ⟨⟨.subtitles, .inProcess, 0, [("transcript_id", "t1")], none⟩,
          ⟨.inSubtitlesProcess, some "v", some "i", some [], none⟩,
          [], []⟩).step.retries = 0 ∧
    (getSingleSubtitlesResult
        (.fetched "complete garbage, not a VTT payload".data) 100
        ⟨⟨.subtitles, .inProcess, 0, [("transcript_id", "t1")], none⟩,
          ⟨.inSubtitlesProcess, some "v", some "i", some [], none⟩,
          [], []⟩).task.subtitles = some [] := by
  decide

/-- C10: every step row any of the three init workers creates carries
status `INIT`, a non-null payload, and a non-null attempt counter equal to
0, so the retry handler's increment and the attempts invariant have a
well-defined base case. -/
theorem C10_init_steps_well_formed (ts : TrackStatus) (steps : List StepRow)
    (nowIso : String) (ins : StepInsert) (newStatus : TrackStatus) :
    (initSingleTaskSplitting ts steps = some (ins, newStatus) →
      ins.status = .init ∧ ins.data ≠ none ∧ ins.retries = some 0) ∧
    (initSingleTaskTranscription ts steps = some (ins, newStatus) →
      ins.status = .init ∧ ins.data ≠ none ∧ ins.retries = some 0) ∧
    (initSingleTaskSubtitles ts steps nowIso = some (ins, newStatus) →
      ins.status = .init ∧ ins.data ≠ none ∧ ins.retries = some 0) := by
  refine ⟨?_, ?_, ?_⟩ <;> intro h
  · unfold initSingleTaskSplitting at h
    split at h
    · split at h
      · exact absurd h (by simp)
      · rw [Option.some.injEq, Prod.mk.injEq] at h
        obtain ⟨h1, -⟩ := h
        subst h1
        exact ⟨rfl, by simp, rfl⟩
    · exact absurd h (by simp)
  · unfold initSingleTaskTranscription at h
    split at h
    · split at h
      · exact absurd h (by simp)
      · rw [Option.some.injEq, Prod.mk.injEq] at h
        obtain ⟨h1, -⟩ := h
        subst h1
        exact ⟨rfl, by simp, rfl⟩
    · exact absurd h (by simp)
  · unfold initSingleTaskSubtitles at h
    split at h
    · split at h
      · exact absurd h (by simp)
      · split at h
        · exact absurd h (by simp)
        · split at h
          · exact absurd h (by simp)
          · split at h
            · exact absurd h (by simp)
            · rw [Option.some.injEq, Prod.mk.injEq] at h
              obtain ⟨h1, -⟩ := h
              subst h1
              exact ⟨rfl, by simp, rfl⟩
    · exact absurd h (by simp)

/-- A concrete instance of `C10_init_steps_well_formed`: the split init
worker on a freshly created task. -/
theorem C10_witness :
    initSingleTaskSplitting .created [] = some
        ({ kind := .split, status := .init, data := some [], retries := some 0 },
          .inSplitProcess) ∧
      StepInsert.status ⟨.split, .init, some [], some 0⟩ = .init ∧
      StepInsert.data ⟨.split, .init, some [], some 0⟩ ≠ none ∧
      StepInsert.retries ⟨.split, .init, some [], some 0⟩ = some 0 :=
  ⟨by decide,
    (C10_init_steps_well_formed .created [] "" _ .inSplitProcess).1 (by decide)⟩

end AikBack
